import Mathlib

/-!
Verification development for the tensorkit variational-inference core.

The embedding follows `src/tensorkit/variational/chain.py` and
`src/tensorkit/backend/utils.py` directly.  Components of the repository
that are exercised by its tests but whose defining module is not part of
the studied sources (the `BayesianNet` graph, the `VariationalInference`
objectives, and the `Bernoulli` distribution) are modelled from the
specification text, as indicated by their doc comments.

Tensors handled by the chain are log-probability values; the tensor
facade is an external collaborator, so its tensors are modelled as
rational scalars and `T.add_n` as list summation.
-/

/-- Modelled from the spec: the `BayesianNet` module is not among the studied
sources.  Only the parts read by `VariationalChain` are modelled: an ordered
mapping from variable name to the log-probability tensor of the
`StochasticTensor` recorded under that name (insertion order preserved). -/
structure BayesianNet where
  vars : List (String × ℚ)
deriving DecidableEq

/-- Iterating a `BayesianNet` (`list(q)` in the source) yields the variable
names in insertion order. -/
def BayesianNet.names (net : BayesianNet) : List String :=
  net.vars.map Prod.fst

/-- Modelled from the spec: `log_probs(names)` returns each named variable
log-probability in the given order. -/
def BayesianNet.log_probs (net : BayesianNet) (names : List String) : List ℚ :=
  names.map (fun n => (net.vars.lookup n).getD 0)

/-- The tensor facade `T.add_n`: sum of a list of tensors. -/
def add_n (xs : List ℚ) : ℚ := xs.sum

/-- The `VariationalInference` value constructed by `VariationalChain.vi`:
a record of `(log_joint, latent_log_joint, axis)`. -/
structure VariationalInference where
  log_joint : ℚ
  latent_log_joint : ℚ
  axis : Option (List Int)
deriving DecidableEq

/-- `VariationalChain` from `src/tensorkit/variational/chain.py`.  The fields
`log_joint_cache`, `latent_log_joint_cache` and `vi_cache` embed the slots
`_log_joint`, `_latent_log_joint` and `_vi`. -/
structure VariationalChain where
  p : BayesianNet
  q : BayesianNet
  latent_names : List String
  latent_axis : Option (List Int)
  log_joint_cache : Option ℚ
  latent_log_joint_cache : Option ℚ
  vi_cache : Option VariationalInference
deriving DecidableEq

/-- `VariationalChain.__init__` (chain.py lines 43-79): `latent_names`
defaults to all names of `q`; the pre-computed `log_joint` and
`latent_log_joint` arguments seed the caches; `_vi` starts empty. -/
def VariationalChain.make (p q : BayesianNet)
    (latent_names : Option (List String)) (latent_axis : Option (List Int))
    (log_joint : Option ℚ) (latent_log_joint : Option ℚ) : VariationalChain :=
  { p := p
    q := q
    latent_names := latent_names.getD q.names
    latent_axis := latent_axis
    log_joint_cache := log_joint
    latent_log_joint_cache := latent_log_joint
    vi_cache := none }

/-- The `log_joint` property (chain.py lines 81-86).  Returns the value, the
post-access chain state, and whether the body `T.add_n(p.log_probs(p))` was
evaluated (the cache was empty). -/
def VariationalChain.get_log_joint (c : VariationalChain) :
    ℚ × VariationalChain × Bool :=
  match c.log_joint_cache with
  | some v => (v, c, false)
  | none =>
    let v := add_n (c.p.log_probs c.p.names)
    (v, { c with log_joint_cache := some v }, true)

/-- The `latent_log_joint` property (chain.py lines 88-96): computes
`T.add_n(q.log_probs(latent_names))` on first access and caches it. -/
def VariationalChain.get_latent_log_joint (c : VariationalChain) :
    ℚ × VariationalChain × Bool :=
  match c.latent_log_joint_cache with
  | some v => (v, c, false)
  | none =>
    let v := add_n (c.q.log_probs c.latent_names)
    (v, { c with latent_log_joint_cache := some v }, true)

/-- The `vi` property (chain.py lines 98-106): on first access reads the
`log_joint` and `latent_log_joint` properties (possibly populating their
caches), builds the `VariationalInference` record, and caches it. -/
def VariationalChain.get_vi (c : VariationalChain) :
    VariationalInference × VariationalChain × Bool :=
  match c.vi_cache with
  | some v => (v, c, false)
  | none =>
    let r1 := c.get_log_joint
    let r2 := r1.2.1.get_latent_log_joint
    let v : VariationalInference :=
      { log_joint := r1.1, latent_log_joint := r2.1, axis := r2.2.1.latent_axis }
    (v, { r2.2.1 with vi_cache := some v }, true)

/-- A Python exception value raised (or merely constructed) by the module
body of `src/tensorkit/backend/utils.py`. -/
inductive PyExc where
  | runtimeError (msg : String)
  | nameError (name : String)
deriving DecidableEq

/-- The module body of `src/tensorkit/backend/utils.py`.  When the configured
backend is PyTorch, the name `utils` is bound to the PyTorch utils module
(represented by its `__all__` list).  Otherwise the `else` branch evaluates
the expression statement on line 7, which constructs a RuntimeError value
and discards it without raising, leaving `utils` unbound.  The final line
`__all__ = utils.__all__` then reads `utils`: a NameError when unbound. -/
def backend_utils_module_body (backend : String)
    (pytorch_utils_all : List String) : Except PyExc (List String) :=
  let utils_binding : Option (List String) :=
    if backend = "PyTorch" then
      some pytorch_utils_all
    else
      let _discarded := PyExc.runtimeError ("Backend " ++ backend ++ " not supported.")
      none
  match utils_binding with
  | some a => .ok a
  | none => .error (.nameError "utils")

/-- Scalar entry of a parameter tensor: a finite rational, or one of the
non-finite floating-point values. -/
inductive Scalar where
  | finite (x : ℚ)
  | nan
  | posInf
  | negInf
deriving DecidableEq

/-- Whether a scalar is finite (neither NaN nor an infinity). -/
def Scalar.isFinite : Scalar → Bool
  | .finite _ => true
  | _ => false

/-- A parameter or sample tensor: a shape and its flattened entries. -/
structure STensor where
  shape : List Nat
  elems : List Scalar
deriving DecidableEq

/-- Error kinds of the distribution layer.  `configurationError` is raised
for invalid or conflicting construction arguments, `validationError` for
non-finite values detected when validation is enabled. -/
inductive TkError where
  | configurationError (msg : String)
  | validationError (msg : String)
deriving DecidableEq

/-- Modelled from the spec: the `Bernoulli` distribution module is not among
the studied sources.  State per the data model: `dtype`, `event_ndims`,
`epsilon`, `validate_tensors`, and exactly one supplied mutual parameter
(`original_key` is the name of the parameter supplied at construction and
`original_val` its tensor); the other parameter is derived lazily into
`derived_cache`. -/
structure Bernoulli where
  dtype : String
  event_ndims : Nat
  epsilon : ℚ
  validate_tensors : Bool
  original_key : String
  original_val : STensor
  derived_cache : Option STensor
deriving DecidableEq

/-- Bernoulli is a discrete distribution. -/
def Bernoulli.continuous (_ : Bernoulli) : Bool := false

/-- Bernoulli sampling is not reparameterized. -/
def Bernoulli.reparameterized (_ : Bernoulli) : Bool := false

/-- Bernoulli events are scalars. -/
def Bernoulli.min_event_ndims (_ : Bernoulli) : Nat := 0

/-- The batch shape of a Bernoulli is the shape of its parameter tensor. -/
def Bernoulli.batch_shape (b : Bernoulli) : List Nat := b.original_val.shape

/-- Modelled from the spec: Bernoulli construction.  Exactly one of `logits`
and `probs` must be supplied, otherwise a ConfigurationError; when
validation is enabled, a non-finite entry in the supplied parameter raises
a ValidationError before any dependent computation. -/
def Bernoulli.construct (logits probs : Option STensor) (dtype : String)
    (event_ndims : Nat) (epsilon : ℚ) (validate_tensors : Bool) :
    Except TkError Bernoulli :=
  match logits, probs with
  | some _, some _ =>
    .error (.configurationError
      "Either `logits` or `probs` must be specified, but not both.")
  | none, none =>
    .error (.configurationError
      "Either `logits` or `probs` must be specified, but not both.")
  | some l, none =>
    if validate_tensors && !(l.elems.all Scalar.isFinite) then
      .error (.validationError "Infinity or NaN value encountered")
    else
      .ok { dtype := dtype, event_ndims := event_ndims, epsilon := epsilon,
            validate_tensors := validate_tensors, original_key := "logits",
            original_val := l, derived_cache := none }
  | none, some pr =>
    if validate_tensors && !(pr.elems.all Scalar.isFinite) then
      .error (.validationError "Infinity or NaN value encountered")
    else
      .ok { dtype := dtype, event_ndims := event_ndims, epsilon := epsilon,
            validate_tensors := validate_tensors, original_key := "probs",
            original_val := pr, derived_cache := none }

/-- Modelled from the spec: `copy(**overrides)` through `copy_distribution`
rebuilds the distribution from the attributes
`(dtype, event_ndims, validate_tensors, epsilon)` with the explicitly
overridden ones replaced, passes the original mutual parameter through
unchanged, and never copies the derived parameter cache (it is recomputed
lazily on demand). -/
def Bernoulli.copy (b : Bernoulli) (event_ndims_o : Option Nat)
    (dtype_o : Option String) (epsilon_o : Option ℚ)
    (validate_tensors_o : Option Bool) : Bernoulli :=
  { dtype := dtype_o.getD b.dtype
    event_ndims := event_ndims_o.getD b.event_ndims
    epsilon := epsilon_o.getD b.epsilon
    validate_tensors := validate_tensors_o.getD b.validate_tensors
    original_key := b.original_key
    original_val := b.original_val
    derived_cache := none }

/-- A sampled value bound to the distribution that produced it, with
sample-count and grouping metadata. -/
structure StochasticTensor where
  distribution : Bernoulli
  tensor : STensor
  n_samples : Option Nat
  group_ndims : Int
  reparameterized : Bool
deriving DecidableEq

/-- Modelled from the spec: `sample(n_samples, group_ndims)` draws i.i.d.
samples from the external random source `draw`; if `n_samples` is given, a
leading axis of that size is prepended to the batch shape.  The produced
`StochasticTensor` records the owning distribution, the metadata, and that
Bernoulli samples are not reparameterized. -/
def Bernoulli.sample (b : Bernoulli) (n_samples : Option Nat)
    (group_ndims : Int) (draw : Nat → Scalar) : StochasticTensor :=
  let s : List Nat :=
    match n_samples with
    | some n => n :: b.batch_shape
    | none => b.batch_shape
  { distribution := b
    tensor := { shape := s, elems := (List.range s.prod).map draw }
    n_samples := n_samples
    group_ndims := group_ndims
    reparameterized := false }

/-- Modelled from the spec: the `VariationalInference` objectives module is
not among the studied sources.  The plain evidence lower bound:
`elbo = log_joint - latent_log_joint`. -/
def elbo (log_joint latent_log_joint : ℝ) : ℝ := log_joint - latent_log_joint

/-- Modelled from the spec: `logmeanexp` over a latent axis holding the
listed values: the log of the mean of their exponentials. -/
noncomputable def logmeanexp (xs : List ℝ) : ℝ :=
  Real.log ((xs.map Real.exp).sum / xs.length)

/-- Modelled from the spec: evaluation objective (importance-weighted
log-likelihood): given the per-sample `log_joint` and `latent_log_joint`
values of the `n_z` independent latent samples along `latent_axis`, the
`logmeanexp` over that axis of `(log_joint - latent_log_joint)`. -/
noncomputable def importance_weighted_ll
    (log_joints latent_log_joints : List ℝ) : ℝ :=
  logmeanexp (List.zipWith (fun a b => a - b) log_joints latent_log_joints)

/-- C1: for a `VariationalChain` constructed without a pre-computed
`log_joint`, the `log_joint` property equals `T.add_n` of the generative
net log-probabilities over all of its variables, the first access stores
that value in the cache, and a later access returns the cached value
without recomputation. -/
theorem C1_log_joint_is_full_generative_sum (p q : BayesianNet)
    (ln : Option (List String)) (la : Option (List Int)) (llj : Option ℚ) :
    let c := VariationalChain.make p q ln la none llj
    (c.get_log_joint.1 = add_n (p.log_probs p.names)) ∧
    (c.get_log_joint.2.1.log_joint_cache = some (add_n (p.log_probs p.names))) ∧
    (c.get_log_joint.2.1.get_log_joint =
      (add_n (p.log_probs p.names), c.get_log_joint.2.1, false)) := by
  refine ⟨rfl, rfl, rfl⟩

/-- C4: each lazily cached value of a `VariationalChain` (`log_joint`,
`latent_log_joint`, `vi`) is computed at most once: after the first access
populates the cache field, a later access returns the cached value and the
computation branch is not taken again. -/
theorem C4_caches_computed_at_most_once (c : VariationalChain) :
    (c.get_log_joint.2.1.log_joint_cache = some c.get_log_joint.1 ∧
      c.get_log_joint.2.1.get_log_joint =
        (c.get_log_joint.1, c.get_log_joint.2.1, false)) ∧
    (c.get_latent_log_joint.2.1.latent_log_joint_cache =
        some c.get_latent_log_joint.1 ∧
      c.get_latent_log_joint.2.1.get_latent_log_joint =
        (c.get_latent_log_joint.1, c.get_latent_log_joint.2.1, false)) ∧
    (c.get_vi.2.1.vi_cache = some c.get_vi.1 ∧
      c.get_vi.2.1.get_vi = (c.get_vi.1, c.get_vi.2.1, false)) := by
  refine ⟨⟨?_, ?_⟩, ⟨?_, ?_⟩, ⟨?_, ?_⟩⟩ <;>
    rcases c with ⟨p, q, ln, la, lj, llj, vi⟩ <;>
    first
      | (cases lj <;> simp [VariationalChain.get_log_joint])
      | (cases llj <;> simp [VariationalChain.get_latent_log_joint])
      | (cases vi <;>
          cases lj <;> cases llj <;>
          simp [VariationalChain.get_vi, VariationalChain.get_log_joint,
            VariationalChain.get_latent_log_joint])

/-- C9: for a `VariationalChain` constructed with a pre-computed `log_joint`
(respectively `latent_log_joint`), the corresponding property returns
exactly the supplied tensor, leaves the chain unchanged, and the computing
branch invoking `p.log_probs` (respectively `q.log_probs`) is not taken. -/
theorem C9_precomputed_values_returned_verbatim (p q : BayesianNet)
    (ln : Option (List String)) (la : Option (List Int))
    (t u : ℚ) (llj lj : Option ℚ) :
    ((VariationalChain.make p q ln la (some t) llj).get_log_joint =
      (t, VariationalChain.make p q ln la (some t) llj, false)) ∧
    ((VariationalChain.make p q ln la lj (some u)).get_latent_log_joint =
      (u, VariationalChain.make p q ln la lj (some u), false)) := by
  exact ⟨rfl, rfl⟩

/-- C2: the importance-weighted log-likelihood computed from a single
latent sample (`n_z == 1`) equals the plain ELBO `log_joint -
latent_log_joint` exactly. -/
theorem C2_iwll_with_one_sample_is_elbo (lj llj : ℝ) :
    importance_weighted_ll [lj] [llj] = elbo lj llj := by
  simp [importance_weighted_ll, logmeanexp, elbo, Real.log_exp]

/-- C3: constructing a Bernoulli with both mutual parameters supplied, or
with neither supplied, fails with a ConfigurationError at construction
time. -/
theorem C3_mutual_params_both_or_neither_error (l pr : STensor)
    (dtype : String) (en : Nat) (eps : ℚ) (vt : Bool) :
    Bernoulli.construct (some l) (some pr) dtype en eps vt =
      .error (.configurationError
        "Either `logits` or `probs` must be specified, but not both.") ∧
    Bernoulli.construct none none dtype en eps vt =
      .error (.configurationError
        "Either `logits` or `probs` must be specified, but not both.") := by
  exact ⟨rfl, rfl⟩

/-- C5: for a Bernoulli constructed from `logits`, `copy(event_ndims=2)`
returns a Bernoulli that keeps the originally supplied mutual parameter
tensor unchanged, has `event_ndims = 2`, and agrees with the original on
every other attribute. -/
theorem C5_copy_overrides_only_event_ndims (l : STensor) (dtype : String)
    (en : Nat) (eps : ℚ) (vt : Bool) (b : Bernoulli)
    (h : Bernoulli.construct (some l) none dtype en eps vt = .ok b) :
    b.copy (some 2) none none none = { b with event_ndims := 2 } ∧
    b.original_val = l ∧ b.original_key = "logits" := by
  simp only [Bernoulli.construct] at h
  split at h
  · exact absurd h (by simp)
  · injection h with h
    subst h
    exact ⟨rfl, rfl, rfl⟩

/-- Witness for C5 at a concrete logits tensor. -/
theorem C5_copy_overrides_only_event_ndims_witness :
    Bernoulli.construct (some ⟨[2, 3], [Scalar.finite 0]⟩) none "int32" 1
        (1 / 1000000) false =
      .ok ⟨"int32", 1, 1 / 1000000, false, "logits",
        ⟨[2, 3], [Scalar.finite 0]⟩, none⟩ ∧
    ((⟨"int32", 1, 1 / 1000000, false, "logits",
        ⟨[2, 3], [Scalar.finite 0]⟩, none⟩ : Bernoulli).copy
          (some 2) none none none =
        { (⟨"int32", 1, 1 / 1000000, false, "logits",
            ⟨[2, 3], [Scalar.finite 0]⟩, none⟩ : Bernoulli) with
          event_ndims := 2 } ∧
      (⟨"int32", 1, 1 / 1000000, false, "logits",
        ⟨[2, 3], [Scalar.finite 0]⟩, none⟩ : Bernoulli).original_val =
        ⟨[2, 3], [Scalar.finite 0]⟩ ∧
      (⟨"int32", 1, 1 / 1000000, false, "logits",
        ⟨[2, 3], [Scalar.finite 0]⟩, none⟩ : Bernoulli).original_key =
        "logits") :=
  ⟨rfl, C5_copy_overrides_only_event_ndims ⟨[2, 3], [Scalar.finite 0]⟩
    "int32" 1 (1 / 1000000) false _ rfl⟩

/-- C6: `sample(n_samples=5)` produces a tensor of shape `5 :: batch_shape`
(a leading axis of size 5 is prepended), and `sample(n_samples=None)`
produces a tensor of shape `batch_shape` with no leading axis. -/
theorem C6_sample_shape_prepends_n_samples (b : Bernoulli) (gd : Int)
    (draw : Nat → Scalar) :
    (b.sample (some 5) gd draw).tensor.shape = 5 :: b.batch_shape ∧
    (b.sample none gd draw).tensor.shape = b.batch_shape := by
  exact ⟨rfl, rfl⟩

/-- C7: constructing a Bernoulli with validation enabled and a non-finite
entry in the supplied mutual parameter fails with a ValidationError at
construction time, whichever mutual parameter was supplied. -/
theorem C7_validation_rejects_nonfinite (l : STensor) (dtype : String)
    (en : Nat) (eps : ℚ) (h : l.elems.all Scalar.isFinite = false) :
    Bernoulli.construct (some l) none dtype en eps true =
      .error (.validationError "Infinity or NaN value encountered") ∧
    Bernoulli.construct none (some l) dtype en eps true =
      .error (.validationError "Infinity or NaN value encountered") := by
  constructor <;> simp [Bernoulli.construct, h]

/-- Witness for C7 at a scalar NaN tensor. -/
theorem C7_validation_rejects_nonfinite_witness :
    ((⟨[], [Scalar.nan]⟩ : STensor).elems.all Scalar.isFinite = false) ∧
    Bernoulli.construct (some ⟨[], [Scalar.nan]⟩) none "int32" 0
        (1 / 1000000) true =
      .error (.validationError "Infinity or NaN value encountered") :=
  ⟨rfl, (C7_validation_rejects_nonfinite ⟨[], [Scalar.nan]⟩ "int32" 0
    (1 / 1000000) rfl).1⟩

/-- C8: for any configured backend other than PyTorch, importing
`backend/utils.py` does not raise the constructed RuntimeError; execution
falls through to `__all__ = utils.__all__`, which fails with a NameError
for the unbound name `utils`. -/
theorem C8_non_pytorch_backend_hits_name_error (backend : String)
    (h : backend ≠ "PyTorch") (pa : List String) :
    backend_utils_module_body backend pa = .error (.nameError "utils") ∧
    ∀ msg, backend_utils_module_body backend pa ≠
      .error (.runtimeError msg) := by
  constructor
  · simp [backend_utils_module_body, h]
  · intro msg
    simp [backend_utils_module_body, h]

/-- Witness for C8 at the backend name TensorFlow. -/
theorem C8_non_pytorch_backend_hits_name_error_witness :
    ("TensorFlow" ≠ "PyTorch") ∧
    backend_utils_module_body "TensorFlow" [] = .error (.nameError "utils") :=
  ⟨by decide,
    (C8_non_pytorch_backend_hits_name_error "TensorFlow" (by decide) []).1⟩

/-- C10: every Bernoulli has `continuous = false`, `reparameterized =
false`, `min_event_ndims = 0`, and every StochasticTensor it produces via
`sample` carries `reparameterized = false`. -/
theorem C10_bernoulli_flags_and_nonreparameterized_samples (b : Bernoulli)
    (n : Option Nat) (gd : Int) (draw : Nat → Scalar) :
    b.continuous = false ∧ b.reparameterized = false ∧
    b.min_event_ndims = 0 ∧
    (b.sample n gd draw).reparameterized = false := by
  exact ⟨rfl, rfl, rfl, rfl⟩
